import Mathlib

/-!
# Roxy Engine entry point (`src/main.cpp`)

A shallow embedding of the single translation unit of the repository: the four
global Direct3D handles, `InitializeDirectX11`, `Render`, `Cleanup` and `main`.

The program is a sequence of library calls, so the embedding is a function from
the answers of the libraries (an `Env`) to the sequence of calls the program
issues (a list of `Call`) together with the way the run ends.  A pointer is an
`Option Nat` (`none` is `nullptr`); a member call through a null pointer ends
the run with `Outcome.nullDeref`.
-/

namespace Roxy

/-- A raw pointer: `none` is `nullptr`, `some a` the address `a`. -/
abbrev Ptr := Option Nat

/-! ## Constants of the libraries used by the program -/

/-- Value of `SDL_INIT_VIDEO` (SDL.h). -/
def SDL_INIT_VIDEO : Nat := 0x20
/-- Value of `SDL_WINDOWPOS_CENTERED` (SDL_video.h). -/
def SDL_WINDOWPOS_CENTERED : Nat := 0x2FFF0000
/-- Value of `SDL_WINDOW_SHOWN` (SDL_video.h). -/
def SDL_WINDOW_SHOWN : Nat := 0x4
/-- Value of `SDL_QUIT` (SDL_events.h). -/
def SDL_QUIT : Nat := 0x100
/-- Value of `SDL_KEYDOWN` (SDL_events.h). -/
def SDL_KEYDOWN : Nat := 0x300
/-- Value of `SDL_KEYUP` (SDL_events.h). -/
def SDL_KEYUP : Nat := 0x301
/-- Value of `SDLK_ESCAPE` (SDL_keycode.h). -/
def SDLK_ESCAPE : Int := 27
/-- Value of `SDLK_SPACE` (SDL_keycode.h). -/
def SDLK_SPACE : Int := 32

/-- Line 23: `const int WINDOW_WIDTH = 1280;` -/
def WINDOW_WIDTH : Int := 1280
/-- Line 24: `const int WINDOW_HEIGHT = 720;` -/
def WINDOW_HEIGHT : Int := 720

/-- The macro `FAILED(hr)` of the Windows headers: an `HRESULT` is a signed
32-bit value and a failure code is a negative one. -/
def FAILED (hr : Int) : Bool := decide (hr < 0)

/-! ## Data model -/

/-- The part of an `SDL_Event` the program reads: `event.type` and
`event.key.keysym.sym`. -/
structure SDL_Event where
  type : Nat
  sym : Int
  deriving DecidableEq, Repr

/-- A `float` literal of the source as written: `digits` with the last
`decimals` digits after the point (`0.1f` is `⟨1, 1⟩`, `1.0f` is `⟨10, 1⟩`). -/
structure FloatLit where
  digits : Nat
  decimals : Nat
  deriving DecidableEq, Repr

/-- The objects on which the program calls `Release`: the four global handles
(lines 17-20) and the local `backBuffer` of `InitializeDirectX11` (line 78). -/
inductive Res where
  | g_device
  | g_deviceContext
  | g_swapChain
  | g_renderTargetView
  | backBuffer
  deriving DecidableEq, Repr

/-- The fields of `DXGI_SWAP_CHAIN_DESC` set on lines 35-47. -/
structure SwapChainDesc where
  BufferCount : Nat
  Width : Int
  Height : Int
  RefreshNumerator : Nat
  RefreshDenominator : Nat
  OutputWindow : Nat
  SampleCount : Nat
  SampleQuality : Nat
  Windowed : Bool
  deriving DecidableEq, Repr

/-- One observable action of the program: a library call (with the arguments
the program passes and, where the program reads it, the answer), or a line
written to one of the standard streams. -/
inductive Call where
  | SDL_Init (flags : Nat) (ret : Int)
  | SDL_GetError (ret : String)
  | SDL_CreateWindow (title : String) (x y : Nat) (w h : Int) (flags : Nat) (ret : Ptr)
  | SDL_GetWindowWMInfo (window : Ptr)
  | SDL_PollEvent (ret : Option SDL_Event)
  | SDL_DestroyWindow (window : Ptr)
  | SDL_Quit
  | D3D11CreateDeviceAndSwapChain (flags : Nat) (desc : SwapChainDesc) (hr : Int)
      (swapChain device deviceContext : Ptr)
  | GetBuffer (swapChain : Nat) (buffer : Nat) (ret : Ptr)
  | CreateRenderTargetView (device : Nat) (resource : Ptr) (ret : Ptr)
  | OMSetRenderTargets (deviceContext : Nat) (numViews : Nat) (view : Ptr)
  | RSSetViewports (deviceContext : Nat) (numViewports : Nat) (width height : Int)
  | ClearRenderTargetView (deviceContext : Nat) (view : Ptr) (color : List FloatLit)
  | Present (swapChain : Nat) (syncInterval : Nat) (flags : Nat)
  | Release (obj : Res) (address : Nat)
  | cerr (line : String)
  | cout (line : String)
  deriving DecidableEq

/-- The four globals of lines 17-20. -/
structure Globals where
  g_device : Ptr
  g_deviceContext : Ptr
  g_swapChain : Ptr
  g_renderTargetView : Ptr
  deriving DecidableEq, Repr

/-- The globals at program start: all `nullptr` (lines 17-20). -/
def Globals.init : Globals := ⟨none, none, none, none⟩

/-- The answers of the libraries during one run.

* `sdlInit`: return value of `SDL_Init`;
* `sdlError`: string returned by `SDL_GetError`;
* `window`: return value of `SDL_CreateWindow`;
* `hwnd`: window handle stored by `SDL_GetWindowWMInfo`;
* `debug`: whether the unit is compiled with `_DEBUG` (lines 52-54);
* `debugFlag`: the value of `D3D11_CREATE_DEVICE_DEBUG`;
* `hr`: the `HRESULT` of `D3D11CreateDeviceAndSwapChain`; when it is a success
  code the call stores the non-null addresses `swapChain`, `device`,
  `deviceContext`, and when it is a failure code it stores `NULL`;
* `backBuffer`: the pointer `GetBuffer` stores (`none` when it fails);
* `rtv`: the pointer `CreateRenderTargetView` stores (`none` when it fails);
* `batches`: for each iteration of the main loop, the events `SDL_PollEvent`
  hands out before it answers 0 (the events pending at that drain). -/
structure Env where
  sdlInit : Int
  sdlError : String
  window : Ptr
  hwnd : Nat
  debug : Bool
  debugFlag : Nat
  hr : Int
  swapChain : Nat
  device : Nat
  deviceContext : Nat
  backBuffer : Ptr
  rtv : Ptr
  batches : List (List SDL_Event)

/-- The result of running one function of the program: the calls it issued, the
globals when it stopped, and its return value (`none` when it stopped at a
member call through a null pointer). -/
structure Step (α : Type) where
  trace : List Call
  globals : Globals
  result : Option α

/-- How a run of `main` ends. -/
inductive Outcome where
  /-- The function `main` returned this exit code. -/
  | returned (code : Int)
  /-- The run stopped at a member call through a null pointer. -/
  | nullDeref
  /-- All the batches of the environment are used up and `running` is still
  true: the program is still in its main loop. -/
  | inLoop
  deriving DecidableEq, Repr

/-- A run of `main`: the calls issued, the final globals, and the outcome. -/
structure Run where
  trace : List Call
  globals : Globals
  outcome : Outcome

/-! ## The program -/

/-- Line 103: `float clearColor[4] = { 0.1f, 0.2f, 0.3f, 1.0f };` -/
def clearColor : List FloatLit := [⟨1, 1⟩, ⟨2, 1⟩, ⟨3, 1⟩, ⟨10, 1⟩]

/-- The swap chain description of lines 35-47. -/
def swapChainDesc (hwnd : Nat) : SwapChainDesc :=
  { BufferCount := 1
    Width := WINDOW_WIDTH
    Height := WINDOW_HEIGHT
    RefreshNumerator := 60
    RefreshDenominator := 1
    OutputWindow := hwnd
    SampleCount := 1
    SampleQuality := 0
    Windowed := true }

/-- Lines 26-98: `bool InitializeDirectX11(SDL_Window* window)`. -/
def InitializeDirectX11 (env : Env) (window : Ptr) (g : Globals) : Step Bool :=
  let flags : Nat := if env.debug then env.debugFlag else 0
  let hr := env.hr
  -- lines 56-69: the call stores into g_swapChain, g_device, g_deviceContext
  let g1 : Globals :=
    if FAILED hr then
      { g with g_swapChain := none, g_device := none, g_deviceContext := none }
    else
      { g with g_swapChain := some env.swapChain, g_device := some env.device,
               g_deviceContext := some env.deviceContext }
  let t1 : List Call :=
    [Call.SDL_GetWindowWMInfo window,
     Call.D3D11CreateDeviceAndSwapChain flags (swapChainDesc env.hwnd) hr
       g1.g_swapChain g1.g_device g1.g_deviceContext]
  if FAILED hr then
    ⟨t1 ++ [Call.cerr "Failed to create D3D11 device and swap chain!"], g1, some false⟩
  else
    match g1.g_swapChain with
    | none => ⟨t1, g1, none⟩
    | some sc =>
      -- line 79
      let backBuffer : Ptr := env.backBuffer
      let t2 := t1 ++ [Call.GetBuffer sc 0 backBuffer]
      match g1.g_device with
      | none => ⟨t2, g1, none⟩
      | some dev =>
        -- line 80
        let g2 : Globals := { g1 with g_renderTargetView := env.rtv }
        let t3 := t2 ++ [Call.CreateRenderTargetView dev backBuffer g2.g_renderTargetView]
        -- line 81
        match backBuffer with
        | none => ⟨t3, g2, none⟩
        | some bb =>
          let t4 := t3 ++ [Call.Release Res.backBuffer bb]
          match g2.g_deviceContext with
          | none => ⟨t4, g2, none⟩
          | some ctx =>
            ⟨t4 ++ [Call.OMSetRenderTargets ctx 1 g2.g_renderTargetView,
                    Call.RSSetViewports ctx 1 WINDOW_WIDTH WINDOW_HEIGHT,
                    Call.cout "DirectX 11 initialized successfully!"],
             g2, some true⟩

/-- Lines 100-108: `void Render()`. -/
def Render (g : Globals) : Step Unit :=
  match g.g_deviceContext with
  | none => ⟨[], g, none⟩
  | some ctx =>
    let t1 := [Call.ClearRenderTargetView ctx g.g_renderTargetView clearColor]
    match g.g_swapChain with
    | none => ⟨t1, g, none⟩
    | some sc => ⟨t1 ++ [Call.Present sc 1 0], g, some ()⟩

/-- One guarded release of `Cleanup`: `if (p) p->Release();`. -/
def releaseIfSet (obj : Res) (p : Ptr) : List Call :=
  match p with
  | none => []
  | some a => [Call.Release obj a]

/-- Lines 110-116: `void Cleanup()`. -/
def Cleanup (g : Globals) : Step Unit :=
  ⟨releaseIfSet Res.g_renderTargetView g.g_renderTargetView ++
   releaseIfSet Res.g_swapChain g.g_swapChain ++
   releaseIfSet Res.g_deviceContext g.g_deviceContext ++
   releaseIfSet Res.g_device g.g_device, g, some ()⟩

/-- Lines 167-177: the body of the event loop, as the new value of `running`. -/
def handleEvent (running : Bool) (event : SDL_Event) : Bool :=
  if event.type = SDL_QUIT then false
  else if event.type = SDL_KEYDOWN then
    if event.sym = SDLK_ESCAPE then false else running
  else running

/-- Lines 165-178: `while (SDL_PollEvent(&event)) { ... }` on the events pending
at this drain; the call that finds the queue empty answers 0 and ends the loop.
Returns the value of `running` after the loop and the calls issued. -/
def pollEvents : List SDL_Event → Bool → Bool × List Call
  | [], running => (running, [Call.SDL_PollEvent none])
  | event :: rest, running =>
    let r := pollEvents rest (handleEvent running event)
    (r.1, Call.SDL_PollEvent (some event) :: r.2)

/-- How the main loop stops. -/
inductive LoopEnd where
  /-- The loop condition `running` was found false. -/
  | exited
  /-- The function `Render` stopped at a member call through a null pointer. -/
  | nullDeref
  /-- The batches are used up and `running` is still true. -/
  | inLoop
  deriving DecidableEq, Repr

/-- The result of running the main loop. -/
structure LoopRun where
  trace : List Call
  globals : Globals
  stop : LoopEnd

/-- Lines 162-182: `while (running) { drain events; Render(); }`, started with
the given value of `running` and the given globals. -/
def mainLoop : List (List SDL_Event) → Bool → Globals → LoopRun
  | _, false, g => ⟨[], g, LoopEnd.exited⟩
  | [], true, g => ⟨[], g, LoopEnd.inLoop⟩
  | batch :: rest, true, g =>
    let p := pollEvents batch true
    let r := Render g
    match r.result with
    | none => ⟨p.2 ++ r.trace, r.globals, LoopEnd.nullDeref⟩
    | some _ =>
      let l := mainLoop rest p.1 r.globals
      ⟨p.2 ++ r.trace ++ l.trace, l.globals, l.stop⟩

/-- Lines 152-156: the banner written to standard output. -/
def banner : List Call :=
  [Call.cout "==================================",
   Call.cout "    Roxy Engine - Portal Clone    ",
   Call.cout "==================================",
   Call.cout "DirectX 11 Renderer Initialized",
   Call.cout "Press ESC to exit"]

/-- Lines 128-135: the call of `SDL_CreateWindow`. -/
def createWindowCall (ret : Ptr) : Call :=
  Call.SDL_CreateWindow "Roxy Engine - Portal Clone" SDL_WINDOWPOS_CENTERED
    SDL_WINDOWPOS_CENTERED WINDOW_WIDTH WINDOW_HEIGHT SDL_WINDOW_SHOWN ret

/-- Lines 118-190: `int main(int argc, char* argv[])`. -/
def main (env : Env) : Run :=
  let g0 := Globals.init
  let t1 := [Call.SDL_Init SDL_INIT_VIDEO env.sdlInit]
  if env.sdlInit < 0 then
    ⟨t1 ++ [Call.SDL_GetError env.sdlError,
            Call.cerr ("Failed to initialize SDL: " ++ env.sdlError)],
     g0, Outcome.returned (-1)⟩
  else
    let window := env.window
    let t2 := t1 ++ [createWindowCall window]
    match window with
    | none =>
      ⟨t2 ++ [Call.SDL_GetError env.sdlError,
              Call.cerr ("Failed to create window: " ++ env.sdlError),
              Call.SDL_Quit],
       g0, Outcome.returned (-1)⟩
    | some _ =>
      let i := InitializeDirectX11 env window g0
      match i.result with
      | none => ⟨t2 ++ i.trace, i.globals, Outcome.nullDeref⟩
      | some false =>
        ⟨t2 ++ i.trace ++ [Call.SDL_DestroyWindow window, Call.SDL_Quit],
         i.globals, Outcome.returned (-1)⟩
      | some true =>
        let t3 := t2 ++ i.trace ++ banner
        let l := mainLoop env.batches true i.globals
        match l.stop with
        | LoopEnd.nullDeref => ⟨t3 ++ l.trace, l.globals, Outcome.nullDeref⟩
        | LoopEnd.inLoop => ⟨t3 ++ l.trace, l.globals, Outcome.inLoop⟩
        | LoopEnd.exited =>
          let c := Cleanup l.globals
          ⟨t3 ++ l.trace ++ c.trace ++ [Call.SDL_DestroyWindow window, Call.SDL_Quit],
           c.globals, Outcome.returned 0⟩

/-! ## Vocabulary of the properties -/

/-- An event that asks the program to stop: an `SDL_QUIT` event, or an
`SDL_KEYDOWN` event whose key is `SDLK_ESCAPE`. -/
def isQuitEvent (e : SDL_Event) : Bool :=
  e.type == SDL_QUIT || (e.type == SDL_KEYDOWN && e.sym == SDLK_ESCAPE)

/-- The call is an `SDL_PollEvent`. -/
def isPoll : Call → Bool
  | Call.SDL_PollEvent _ => true
  | _ => false

/-- The call is a `ClearRenderTargetView`. -/
def isClear : Call → Bool
  | Call.ClearRenderTargetView _ _ _ => true
  | _ => false

/-- The call is a `Present`. -/
def isPresent : Call → Bool
  | Call.Present _ _ _ => true
  | _ => false

/-- The call is a write to standard error. -/
def isCerr : Call → Bool
  | Call.cerr _ => true
  | _ => false

/-- The call is a `Release` (of any object). -/
def isRelease : Call → Bool
  | Call.Release _ _ => true
  | _ => false

/-- The call is a `Release` on the object `r`. -/
def isReleaseOf (r : Res) : Call → Bool
  | Call.Release o _ => o == r
  | _ => false

/-- The call is an `SDL_DestroyWindow`. -/
def isDestroyWindow : Call → Bool
  | Call.SDL_DestroyWindow _ => true
  | _ => false

/-- The call is an `SDL_Quit`. -/
def isSDLQuit : Call → Bool
  | Call.SDL_Quit => true
  | _ => false

/-- No `ClearRenderTargetView` and no `Present` comes, anywhere later in the
sequence of calls, after an `SDL_PollEvent` that handed out a quit event or an
Escape key-down. -/
def noRenderAfterQuit : List Call → Bool
  | [] => true
  | Call.SDL_PollEvent (some e) :: rest =>
    (!isQuitEvent e || rest.all (fun c => !isClear c && !isPresent c)) &&
      noRenderAfterQuit rest
  | _ :: rest => noRenderAfterQuit rest

/-- The call stores a non-null pointer into the global handle `r`:
`D3D11CreateDeviceAndSwapChain` stores `g_swapChain`, `g_device` and
`g_deviceContext` (lines 65-68), `CreateRenderTargetView` stores
`g_renderTargetView` (line 80). -/
def acquires (r : Res) : Call → Bool
  | Call.D3D11CreateDeviceAndSwapChain _ _ _ sc dev ctx =>
    (r == Res.g_swapChain && sc.isSome) || (r == Res.g_device && dev.isSome) ||
      (r == Res.g_deviceContext && ctx.isSome)
  | Call.CreateRenderTargetView _ _ ret => r == Res.g_renderTargetView && ret.isSome
  | _ => false

/-- Position in the sequence of calls of the first call satisfying `p`. -/
def firstIdx (p : Call → Bool) : List Call → Option Nat
  | [] => none
  | c :: t => if p c then some 0 else (firstIdx p t).map (fun i => i + 1)

/-- Position of the call that acquires the handle `r`. -/
def acquiredAt (t : List Call) (r : Res) : Option Nat := firstIdx (acquires r) t

/-- Position of the first `Release` on the handle `r`. -/
def releasedAt (t : List Call) (r : Res) : Option Nat := firstIdx (isReleaseOf r) t

/-- The value of the global handle `r` (`backBuffer` is not a global). -/
def Globals.get (g : Globals) : Res → Ptr
  | Res.g_device => g.g_device
  | Res.g_deviceContext => g.g_deviceContext
  | Res.g_swapChain => g.g_swapChain
  | Res.g_renderTargetView => g.g_renderTargetView
  | Res.backBuffer => none

/-- The two device calls of one frame. -/
def frame (ctx sc : Nat) (view : Ptr) : List Call :=
  [Call.ClearRenderTargetView ctx view clearColor, Call.Present sc 1 0]

/-! ## Traces of the parts of a run, and example environments -/

/-- The globals after a successful `InitializeDirectX11`. -/
def okGlobals (env : Env) : Globals :=
  ⟨some env.device, some env.deviceContext, some env.swapChain, env.rtv⟩

/-- The calls of an `InitializeDirectX11` that fails at device creation. -/
def initTraceFailed (env : Env) (window : Ptr) : List Call :=
  [Call.SDL_GetWindowWMInfo window,
   Call.D3D11CreateDeviceAndSwapChain (if env.debug then env.debugFlag else 0)
     (swapChainDesc env.hwnd) env.hr none none none,
   Call.cerr "Failed to create D3D11 device and swap chain!"]

/-- The calls of an `InitializeDirectX11` that returns true. -/
def initTraceOk (env : Env) (window : Ptr) (bb : Nat) : List Call :=
  [Call.SDL_GetWindowWMInfo window,
   Call.D3D11CreateDeviceAndSwapChain (if env.debug then env.debugFlag else 0)
     (swapChainDesc env.hwnd) env.hr (some env.swapChain) (some env.device)
     (some env.deviceContext),
   Call.GetBuffer env.swapChain 0 (some bb),
   Call.CreateRenderTargetView env.device (some bb) env.rtv,
   Call.Release Res.backBuffer bb,
   Call.OMSetRenderTargets env.deviceContext 1 env.rtv,
   Call.RSSetViewports env.deviceContext 1 WINDOW_WIDTH WINDOW_HEIGHT,
   Call.cout "DirectX 11 initialized successfully!"]

/-- The calls of an `InitializeDirectX11` whose `GetBuffer` stores no buffer. -/
def initTraceNull (env : Env) (window : Ptr) : List Call :=
  [Call.SDL_GetWindowWMInfo window,
   Call.D3D11CreateDeviceAndSwapChain (if env.debug then env.debugFlag else 0)
     (swapChainDesc env.hwnd) env.hr (some env.swapChain) (some env.device)
     (some env.deviceContext),
   Call.GetBuffer env.swapChain 0 none,
   Call.CreateRenderTargetView env.device none env.rtv]

/-- The calls of a run up to the main loop, when initialization succeeds. -/
def startTrace (env : Env) (w bb : Nat) : List Call :=
  [Call.SDL_Init SDL_INIT_VIDEO env.sdlInit, createWindowCall (some w)] ++
    initTraceOk env (some w) bb ++ banner

/-- Position of the acquiring call within the start-up calls. -/
def acqStart (view : Ptr) : Res → Option Nat
  | Res.g_renderTargetView => if view.isSome then some 5 else none
  | Res.backBuffer => none
  | _ => some 3

/-- Position of the release of a handle within the teardown calls. -/
def relEnd (view : Ptr) : Res → Option Nat
  | Res.g_renderTargetView => if view.isSome then some 0 else none
  | Res.g_swapChain => if view.isSome then some 1 else some 0
  | Res.g_deviceContext => if view.isSome then some 2 else some 1
  | Res.g_device => if view.isSome then some 3 else some 2
  | Res.backBuffer => none

/-- Every initialization step succeeds; the first drain finds no event, the
second finds a key-down of the space bar, the third an `SDL_QUIT`. -/
def envQuit : Env :=
  { sdlInit := 0, sdlError := "", window := some 1, hwnd := 2, debug := false,
    debugFlag := 2, hr := 0, swapChain := 10, device := 11, deviceContext := 12,
    backBuffer := some 13, rtv := some 14,
    batches := [[], [⟨SDL_KEYDOWN, SDLK_SPACE⟩], [⟨SDL_QUIT, 0⟩]] }

/-- As `envQuit`, with the single drain finding a key-down of Escape. -/
def envEscape : Env :=
  { envQuit with batches := [[⟨SDL_KEYDOWN, SDLK_ESCAPE⟩]] }

/-- The call `SDL_Init` fails. -/
def envNoSDL : Env := { envQuit with sdlInit := -1, sdlError := "no video device" }

/-- The call `SDL_CreateWindow` returns null. -/
def envNoWindow : Env := { envQuit with window := none, sdlError := "no window" }

/-- The call `D3D11CreateDeviceAndSwapChain` returns `E_FAIL` (0x80004005). -/
def envNoDevice : Env := { envQuit with hr := -2147467259 }

/-- Device creation succeeds and `GetBuffer` fails, storing no buffer. -/
def envNoBackBuffer : Env := { envQuit with backBuffer := none, rtv := none }

/-! ## Lemmas on the functions of the program -/

theorem ptr_ne_none (p : Ptr) (h : p ≠ none) : ∃ a, p = some a := by
  cases p with
  | none => exact absurd rfl h
  | some a => exact ⟨a, rfl⟩

theorem handleEvent_eq (running : Bool) (e : SDL_Event) :
    handleEvent running e = (running && !isQuitEvent e) := by
  unfold handleEvent isQuitEvent
  by_cases h1 : e.type = SDL_QUIT
  · simp [h1]
  · by_cases h2 : e.type = SDL_KEYDOWN
    · have hk : ¬ (SDL_KEYDOWN = SDL_QUIT) := by decide
      by_cases h3 : e.sym = SDLK_ESCAPE <;> simp [h2, h3, hk]
    · simp [h1, h2]

theorem pollEvents_running (batch : List SDL_Event) (running : Bool) :
    (pollEvents batch running).1 = (running && !batch.any isQuitEvent) := by
  induction batch generalizing running with
  | nil => simp [pollEvents]
  | cons e rest ih =>
    simp only [pollEvents, ih, handleEvent_eq, List.any_cons]
    cases running <;> cases isQuitEvent e <;> simp

theorem pollEvents_trace (batch : List SDL_Event) (running : Bool) :
    (pollEvents batch running).2 =
      batch.map (fun e => Call.SDL_PollEvent (some e)) ++ [Call.SDL_PollEvent none] := by
  induction batch generalizing running with
  | nil => simp [pollEvents]
  | cons e rest ih => simp [pollEvents, ih]

theorem Render_eq (g : Globals) (ctx sc : Nat) (hc : g.g_deviceContext = some ctx)
    (hs : g.g_swapChain = some sc) :
    Render g = ⟨frame ctx sc g.g_renderTargetView, g, some ()⟩ := by
  simp [Render, hc, hs, frame]

theorem mainLoop_cons (batch : List SDL_Event) (rest : List (List SDL_Event)) (g : Globals)
    (ctx sc : Nat) (hc : g.g_deviceContext = some ctx) (hs : g.g_swapChain = some sc) :
    mainLoop (batch :: rest) true g =
      ⟨(pollEvents batch true).2 ++ frame ctx sc g.g_renderTargetView ++
          (mainLoop rest (!batch.any isQuitEvent) g).trace,
        (mainLoop rest (!batch.any isQuitEvent) g).globals,
        (mainLoop rest (!batch.any isQuitEvent) g).stop⟩ := by
  simp [mainLoop, Render_eq g ctx sc hc hs, pollEvents_running]

theorem mainLoop_false (batches : List (List SDL_Event)) (g : Globals) :
    mainLoop batches false g = ⟨[], g, LoopEnd.exited⟩ := by
  cases batches <;> rfl

theorem mainLoop_globals (batches : List (List SDL_Event)) (running : Bool) (g : Globals)
    (ctx sc : Nat) (hc : g.g_deviceContext = some ctx) (hs : g.g_swapChain = some sc) :
    (mainLoop batches running g).globals = g ∧
      (mainLoop batches running g).stop ≠ LoopEnd.nullDeref := by
  induction batches generalizing running with
  | nil => cases running <;> simp [mainLoop]
  | cons b rest ih =>
    cases running
    · simp [mainLoop]
    · rw [mainLoop_cons b rest g ctx sc hc hs]
      exact ih _

theorem mainLoop_trace_calls (batches : List (List SDL_Event)) (running : Bool) (g : Globals)
    (ctx sc : Nat) (hc : g.g_deviceContext = some ctx) (hs : g.g_swapChain = some sc) :
    ∀ c ∈ (mainLoop batches running g).trace,
      isPoll c = true ∨ c ∈ frame ctx sc g.g_renderTargetView := by
  induction batches generalizing running with
  | nil => cases running <;> simp [mainLoop]
  | cons b rest ih =>
    cases running
    · simp [mainLoop]
    · rw [mainLoop_cons b rest g ctx sc hc hs]
      intro c hcm
      simp only [List.mem_append, pollEvents_trace, List.mem_map, List.mem_singleton] at hcm
      rcases hcm with ((⟨e, _, rfl⟩ | rfl) | h) | h
      · left; rfl
      · left; rfl
      · right; exact h
      · exact ih _ c h

theorem mainLoop_exits (batches : List (List SDL_Event)) (g : Globals)
    (ctx sc : Nat) (hc : g.g_deviceContext = some ctx) (hs : g.g_swapChain = some sc)
    (hq : ∃ b ∈ batches, ∃ e ∈ b, isQuitEvent e = true) :
    (mainLoop batches true g).stop = LoopEnd.exited := by
  induction batches with
  | nil => simp at hq
  | cons b rest ih =>
    rw [mainLoop_cons b rest g ctx sc hc hs]
    by_cases hb : b.any isQuitEvent = true
    · simp [hb, mainLoop_false]
    · have hb2 : b.any isQuitEvent = false := by simpa using hb
      simp only [hb2, Bool.not_false]
      apply ih
      obtain ⟨b1, hb1, e, he, hqe⟩ := hq
      rcases List.mem_cons.mp hb1 with rfl | hrest
      · exact absurd (List.any_eq_true.mpr ⟨e, he, hqe⟩) hb
      · exact ⟨b1, hrest, e, he, hqe⟩

theorem init_failed (env : Env) (window : Ptr) (h : env.hr < 0) :
    InitializeDirectX11 env window Globals.init =
      ⟨initTraceFailed env window, Globals.init, some false⟩ := by
  simp [InitializeDirectX11, FAILED, h, initTraceFailed, Globals.init]

theorem init_ok (env : Env) (window : Ptr) (bb : Nat) (h : 0 ≤ env.hr)
    (hb : env.backBuffer = some bb) :
    InitializeDirectX11 env window Globals.init =
      ⟨initTraceOk env window bb, okGlobals env, some true⟩ := by
  have h2 : ¬ env.hr < 0 := not_lt.mpr h
  simp [InitializeDirectX11, FAILED, h2, hb, initTraceOk, okGlobals, Globals.init]

theorem init_null (env : Env) (window : Ptr) (h : 0 ≤ env.hr)
    (hb : env.backBuffer = none) :
    InitializeDirectX11 env window Globals.init =
      ⟨initTraceNull env window, okGlobals env, none⟩ := by
  have h2 : ¬ env.hr < 0 := not_lt.mpr h
  simp [InitializeDirectX11, FAILED, h2, hb, initTraceNull, okGlobals, Globals.init]

theorem init_true_iff (env : Env) (window : Ptr) :
    (InitializeDirectX11 env window Globals.init).result = some true ↔
      0 ≤ env.hr ∧ ∃ bb, env.backBuffer = some bb := by
  by_cases h : env.hr < 0
  · rw [init_failed env window h]
    constructor
    · intro h1; simp at h1
    · intro h1; omega
  · have h2 : 0 ≤ env.hr := not_lt.mp h
    cases hb : env.backBuffer with
    | none => rw [init_null env window h2 hb]; simp
    | some bb => rw [init_ok env window bb h2 hb]; simp [h2]

theorem main_sdl_fail (env : Env) (h : env.sdlInit < 0) :
    main env =
      ⟨[Call.SDL_Init SDL_INIT_VIDEO env.sdlInit, Call.SDL_GetError env.sdlError,
        Call.cerr ("Failed to initialize SDL: " ++ env.sdlError)],
       Globals.init, Outcome.returned (-1)⟩ := by
  simp [main, h]

theorem main_window_fail (env : Env) (h1 : 0 ≤ env.sdlInit) (h2 : env.window = none) :
    main env =
      ⟨[Call.SDL_Init SDL_INIT_VIDEO env.sdlInit, createWindowCall none,
        Call.SDL_GetError env.sdlError,
        Call.cerr ("Failed to create window: " ++ env.sdlError), Call.SDL_Quit],
       Globals.init, Outcome.returned (-1)⟩ := by
  have h : ¬ env.sdlInit < 0 := not_lt.mpr h1
  simp [main, h, h2]

theorem main_device_fail (env : Env) (w : Nat) (h1 : 0 ≤ env.sdlInit)
    (h2 : env.window = some w) (h3 : env.hr < 0) :
    main env =
      ⟨[Call.SDL_Init SDL_INIT_VIDEO env.sdlInit, createWindowCall (some w)] ++
          initTraceFailed env (some w) ++ [Call.SDL_DestroyWindow (some w), Call.SDL_Quit],
       Globals.init, Outcome.returned (-1)⟩ := by
  have h : ¬ env.sdlInit < 0 := not_lt.mpr h1
  simp [main, h, h2, init_failed env (some w) h3]

theorem main_null (env : Env) (w : Nat) (h1 : 0 ≤ env.sdlInit)
    (h2 : env.window = some w) (h3 : 0 ≤ env.hr) (hb : env.backBuffer = none) :
    main env =
      ⟨[Call.SDL_Init SDL_INIT_VIDEO env.sdlInit, createWindowCall (some w)] ++
          initTraceNull env (some w), okGlobals env, Outcome.nullDeref⟩ := by
  have h : ¬ env.sdlInit < 0 := not_lt.mpr h1
  simp [main, h, h2, init_null env (some w) h3 hb]

theorem main_ok_exited (env : Env) (w bb : Nat) (h1 : 0 ≤ env.sdlInit)
    (h2 : env.window = some w) (h3 : 0 ≤ env.hr) (hb : env.backBuffer = some bb)
    (hl : (mainLoop env.batches true (okGlobals env)).stop = LoopEnd.exited) :
    main env =
      ⟨startTrace env w bb ++ (mainLoop env.batches true (okGlobals env)).trace ++
          (Cleanup (okGlobals env)).trace ++ [Call.SDL_DestroyWindow (some w), Call.SDL_Quit],
       okGlobals env, Outcome.returned 0⟩ := by
  have h : ¬ env.sdlInit < 0 := not_lt.mpr h1
  have hg := (mainLoop_globals env.batches true (okGlobals env) env.deviceContext
    env.swapChain rfl rfl).1
  simp [main, h, h2, init_ok env (some w) bb h3 hb, hl, hg, startTrace, Cleanup]

theorem main_ok_inLoop (env : Env) (w bb : Nat) (h1 : 0 ≤ env.sdlInit)
    (h2 : env.window = some w) (h3 : 0 ≤ env.hr) (hb : env.backBuffer = some bb)
    (hl : (mainLoop env.batches true (okGlobals env)).stop ≠ LoopEnd.exited) :
    main env =
      ⟨startTrace env w bb ++ (mainLoop env.batches true (okGlobals env)).trace,
       okGlobals env, Outcome.inLoop⟩ := by
  have h : ¬ env.sdlInit < 0 := not_lt.mpr h1
  have hg := mainLoop_globals env.batches true (okGlobals env) env.deviceContext
    env.swapChain rfl rfl
  have hs : (mainLoop env.batches true (okGlobals env)).stop = LoopEnd.inLoop := by
    cases hst : (mainLoop env.batches true (okGlobals env)).stop with
    | exited => exact absurd hst hl
    | nullDeref => exact absurd hst hg.2
    | inLoop => rfl
  simp [main, h, h2, init_ok env (some w) bb h3 hb, hs, hg.1, startTrace]

theorem mem_releaseIfSet (r : Res) (p : Ptr) (c : Call) :
    c ∈ releaseIfSet r p ↔ ∃ a, p = some a ∧ c = Call.Release r a := by
  cases p <;> simp [releaseIfSet]

theorem mem_Cleanup (g : Globals) (c : Call) :
    c ∈ (Cleanup g).trace ↔
      ∃ r a, r ≠ Res.backBuffer ∧ g.get r = some a ∧ c = Call.Release r a := by
  simp only [Cleanup, List.mem_append, mem_releaseIfSet]
  constructor
  · rintro (((⟨a, h, rfl⟩ | ⟨a, h, rfl⟩) | ⟨a, h, rfl⟩) | ⟨a, h, rfl⟩)
    · exact ⟨Res.g_renderTargetView, a, by decide, h, rfl⟩
    · exact ⟨Res.g_swapChain, a, by decide, h, rfl⟩
    · exact ⟨Res.g_deviceContext, a, by decide, h, rfl⟩
    · exact ⟨Res.g_device, a, by decide, h, rfl⟩
  · rintro ⟨r, a, hr, h, rfl⟩
    cases r
    · exact Or.inr ⟨a, h, rfl⟩
    · exact Or.inl (Or.inr ⟨a, h, rfl⟩)
    · exact Or.inl (Or.inl (Or.inr ⟨a, h, rfl⟩))
    · exact Or.inl (Or.inl (Or.inl ⟨a, h, rfl⟩))
    · exact absurd rfl hr

theorem Cleanup_trace_release (g : Globals) :
    ∀ c ∈ (Cleanup g).trace, isRelease c = true := by
  intro c hc
  obtain ⟨r, a, _, _, rfl⟩ := (mem_Cleanup g c).mp hc
  rfl

theorem isQuitEvent_iff (e : SDL_Event) :
    isQuitEvent e = true ↔
      (e.type = SDL_QUIT ∨ (e.type = SDL_KEYDOWN ∧ e.sym = SDLK_ESCAPE)) := by
  simp [isQuitEvent]

/-- The shape of every run whose three initialization steps succeed and whose
`GetBuffer` call stores a buffer: the start-up calls, then polls and frames,
then either nothing (still in the loop) or the teardown. -/
theorem main_ok_shape (env : Env) (w bb : Nat) (h1 : 0 ≤ env.sdlInit)
    (h2 : env.window = some w) (h3 : 0 ≤ env.hr) (hb : env.backBuffer = some bb) :
    ∃ l : List Call,
      (∀ c ∈ l, isPoll c = true ∨ c ∈ frame env.deviceContext env.swapChain env.rtv) ∧
      (((main env).outcome = Outcome.inLoop ∧ (main env).trace = startTrace env w bb ++ l) ∨
       ((main env).outcome = Outcome.returned 0 ∧
          (main env).trace = startTrace env w bb ++ l ++ (Cleanup (okGlobals env)).trace ++
            [Call.SDL_DestroyWindow (some w), Call.SDL_Quit])) := by
  refine ⟨(mainLoop env.batches true (okGlobals env)).trace,
    mainLoop_trace_calls env.batches true (okGlobals env) env.deviceContext
      env.swapChain rfl rfl, ?_⟩
  by_cases hl : (mainLoop env.batches true (okGlobals env)).stop = LoopEnd.exited
  · right
    rw [main_ok_exited env w bb h1 h2 h3 hb hl]
    exact ⟨rfl, rfl⟩
  · left
    rw [main_ok_inLoop env w bb h1 h2 h3 hb hl]
    exact ⟨rfl, rfl⟩

theorem main_returned_zero (env : Env) (h : (main env).outcome = Outcome.returned 0) :
    ∃ w bb, 0 ≤ env.sdlInit ∧ env.window = some w ∧ 0 ≤ env.hr ∧
      env.backBuffer = some bb ∧
      (mainLoop env.batches true (okGlobals env)).stop = LoopEnd.exited := by
  by_cases h1 : env.sdlInit < 0
  · rw [main_sdl_fail env h1] at h
    simp at h
  · have h1 : 0 ≤ env.sdlInit := not_lt.mp h1
    cases hw : env.window with
    | none =>
      rw [main_window_fail env h1 hw] at h
      simp at h
    | some w =>
      by_cases h3 : env.hr < 0
      · rw [main_device_fail env w h1 hw h3] at h
        simp at h
      · have h3 : 0 ≤ env.hr := not_lt.mp h3
        cases hb : env.backBuffer with
        | none =>
          rw [main_null env w h1 hw h3 hb] at h
          simp at h
        | some bb =>
          by_cases hl : (mainLoop env.batches true (okGlobals env)).stop = LoopEnd.exited
          · exact ⟨w, bb, h1, rfl, h3, rfl, hl⟩
          · rw [main_ok_inLoop env w bb h1 hw h3 hb hl] at h
            simp at h

theorem firstIdx_cons (p : Call → Bool) (c : Call) (t : List Call) :
    firstIdx p (c :: t) =
      if p c then some 0 else (firstIdx p t).map (fun i => i + 1) := rfl

theorem firstIdx_append_some (p : Call → Bool) (l1 l2 : List Call) (i : Nat)
    (h : firstIdx p l1 = some i) : firstIdx p (l1 ++ l2) = some i := by
  induction l1 generalizing i with
  | nil => simp [firstIdx] at h
  | cons c t ih =>
    rw [List.cons_append, firstIdx_cons]
    rw [firstIdx_cons] at h
    by_cases hp : p c = true
    · simpa [hp] using h
    · simp only [hp, if_false, Bool.false_eq_true] at h ⊢
      cases ht : firstIdx p t with
      | none => rw [ht] at h; simp at h
      | some j =>
        rw [ht] at h
        rw [ih j ht]
        exact h

theorem firstIdx_append_none (p : Call → Bool) (l1 l2 : List Call)
    (h : firstIdx p l1 = none) :
    firstIdx p (l1 ++ l2) = (firstIdx p l2).map (fun i => i + l1.length) := by
  induction l1 with
  | nil => simp
  | cons c t ih =>
    rw [List.cons_append, firstIdx_cons]
    rw [firstIdx_cons] at h
    by_cases hp : p c = true
    · simp [hp] at h
    · simp only [hp, if_false, Bool.false_eq_true] at h ⊢
      have ht : firstIdx p t = none := by
        cases ht : firstIdx p t with
        | none => rfl
        | some j => rw [ht] at h; simp at h
      rw [ih ht]
      cases firstIdx p l2 with
      | none => rfl
      | some j => simp [Nat.add_assoc]

theorem firstIdx_none (p : Call → Bool) (l : List Call) (h : ∀ c ∈ l, p c = false) :
    firstIdx p l = none := by
  induction l with
  | nil => rfl
  | cons c t ih =>
    have hc : p c = false := h c (List.mem_cons_self c t)
    simp [firstIdx, hc, ih (fun d hd => h d (List.mem_cons_of_mem c hd))]

theorem countP_zero (p : Call → Bool) (l : List Call) (h : ∀ c ∈ l, p c = false) :
    l.countP p = 0 := by
  rw [List.countP_eq_zero]
  intro c hc
  simp [h c hc]

/-- A poll or a call of a frame acquires nothing and releases nothing. -/
theorem loop_calls_neutral (ctx sc : Nat) (view : Ptr) (l : List Call)
    (hl : ∀ c ∈ l, isPoll c = true ∨ c ∈ frame ctx sc view) (c : Call) (hc : c ∈ l) :
    (∀ r, acquires r c = false) ∧ (∀ r, isReleaseOf r c = false) ∧ isRelease c = false ∧
      isSDLQuit c = false ∧ isDestroyWindow c = false := by
  rcases hl c hc with hp | hf
  · cases c <;> simp_all [isPoll, acquires, isReleaseOf, isRelease, isSDLQuit, isDestroyWindow]
  · simp only [frame, List.mem_cons, List.mem_singleton, List.not_mem_nil, or_false] at hf
    rcases hf with rfl | rfl <;>
      simp [acquires, isReleaseOf, isRelease, isSDLQuit, isDestroyWindow]

theorem firstIdx_three_some (p : Call → Bool) (s l e : List Call) (i : Nat)
    (h : firstIdx p s = some i) : firstIdx p (s ++ l ++ e) = some i := by
  rw [List.append_assoc]
  exact firstIdx_append_some p s (l ++ e) i h

theorem firstIdx_three_none (p : Call → Bool) (s l e : List Call)
    (h : firstIdx p s = none) (hl : ∀ c ∈ l, p c = false) :
    firstIdx p (s ++ l ++ e) = (firstIdx p e).map (fun i => i + (s.length + l.length)) := by
  have h2 : firstIdx p (s ++ l) = none := by
    rw [firstIdx_append_none p s l h, firstIdx_none p l hl]
    rfl
  rw [firstIdx_append_none p (s ++ l) e h2, List.length_append]

theorem acquires_start (env : Env) (w bb : Nat) (r : Res) :
    firstIdx (acquires r) (startTrace env w bb) = acqStart env.rtv r := by
  rcases env with ⟨_, _, _, _, _, _, _, _, _, _, _, view, _⟩
  cases r <;> cases view <;> rfl

theorem release_end (env : Env) (w : Nat) (r : Res) :
    firstIdx (isReleaseOf r)
        ((Cleanup (okGlobals env)).trace ++ [Call.SDL_DestroyWindow (some w), Call.SDL_Quit]) =
      relEnd env.rtv r := by
  rcases env with ⟨_, _, _, _, _, _, _, _, _, _, _, view, _⟩
  cases r <;> cases view <;> rfl

theorem acquires_end (env : Env) (w : Nat) (r : Res) :
    firstIdx (acquires r)
        ((Cleanup (okGlobals env)).trace ++ [Call.SDL_DestroyWindow (some w), Call.SDL_Quit]) =
      none := by
  rcases env with ⟨_, _, _, _, _, _, _, _, _, _, _, view, _⟩
  cases r <;> cases view <;> rfl

theorem release_start (env : Env) (w bb : Nat) (r : Res) (hr : r ≠ Res.backBuffer) :
    firstIdx (isReleaseOf r) (startTrace env w bb) = none := by
  cases r <;> first | rfl | exact absurd rfl hr

theorem startTrace_length (env : Env) (w bb : Nat) : (startTrace env w bb).length = 15 := rfl

theorem main_returned (env : Env) (code : Int)
    (h : (main env).outcome = Outcome.returned code) :
    (env.sdlInit < 0 ∧ code = -1) ∨
    (0 ≤ env.sdlInit ∧ env.window = none ∧ code = -1) ∨
    (∃ w, 0 ≤ env.sdlInit ∧ env.window = some w ∧ env.hr < 0 ∧ code = -1) ∨
    (∃ w bb, 0 ≤ env.sdlInit ∧ env.window = some w ∧ 0 ≤ env.hr ∧
      env.backBuffer = some bb ∧
      (mainLoop env.batches true (okGlobals env)).stop = LoopEnd.exited ∧ code = 0) := by
  by_cases h1 : env.sdlInit < 0
  · rw [main_sdl_fail env h1] at h
    left
    exact ⟨h1, by simpa using h.symm⟩
  · have h1 : 0 ≤ env.sdlInit := not_lt.mp h1
    right
    cases hw : env.window with
    | none =>
      rw [main_window_fail env h1 hw] at h
      left
      exact ⟨h1, rfl, by simpa using h.symm⟩
    | some w =>
      right
      by_cases h3 : env.hr < 0
      · rw [main_device_fail env w h1 hw h3] at h
        left
        exact ⟨w, h1, rfl, h3, by simpa using h.symm⟩
      · have h3 : 0 ≤ env.hr := not_lt.mp h3
        right
        cases hb : env.backBuffer with
        | none =>
          rw [main_null env w h1 hw h3 hb] at h
          simp at h
        | some bb =>
          by_cases hl : (mainLoop env.batches true (okGlobals env)).stop = LoopEnd.exited
          · rw [main_ok_exited env w bb h1 hw h3 hb hl] at h
            exact ⟨w, bb, h1, rfl, h3, rfl, hl, by simpa using h.symm⟩
          · rw [main_ok_inLoop env w bb h1 hw h3 hb hl] at h
            simp at h

theorem count_release_start (env : Env) (w bb : Nat) (r : Res) :
    (startTrace env w bb).countP (isReleaseOf r) = if r = Res.backBuffer then 1 else 0 := by
  cases r <;> rfl

theorem count_release_null (env : Env) (w : Nat) (r : Res) :
    ([Call.SDL_Init SDL_INIT_VIDEO env.sdlInit, createWindowCall (some w)] ++
      initTraceNull env (some w)).countP (isReleaseOf r) = 0 := by
  cases r <;> rfl

theorem count_release_end (env : Env) (w : Nat) (r : Res) :
    ((Cleanup (okGlobals env)).trace ++
        [Call.SDL_DestroyWindow (some w), Call.SDL_Quit]).countP (isReleaseOf r) =
      if ((okGlobals env).get r).isSome then 1 else 0 := by
  rcases env with ⟨_, _, _, _, _, _, _, _, _, _, _, view, _⟩
  cases r <;> cases view <;> rfl

theorem count_release_cleanup (g : Globals) (r : Res) :
    (Cleanup g).trace.countP (isReleaseOf r) = if (g.get r).isSome then 1 else 0 := by
  rcases g with ⟨d, x, s, v⟩
  cases r <;> cases d <;> cases x <;> cases s <;> cases v <;> rfl

/-! ## The claims -/

/-- C1: in every run of `main` in which `SDL_Init` and `SDL_CreateWindow`
succeed, `InitializeDirectX11` returns true, and some drained batch of window
events contains an `SDL_QUIT` event or an `SDL_KEYDOWN` event whose key is
`SDLK_ESCAPE`, `main` returns exit code 0. -/
theorem main_returns_zero_on_quit (env : Env) (h1 : 0 ≤ env.sdlInit)
    (h2 : env.window ≠ none)
    (h3 : (InitializeDirectX11 env env.window Globals.init).result = some true)
    (h4 : ∃ b ∈ env.batches, ∃ e ∈ b,
      e.type = SDL_QUIT ∨ (e.type = SDL_KEYDOWN ∧ e.sym = SDLK_ESCAPE)) :
    (main env).outcome = Outcome.returned 0 := by
  obtain ⟨w, hw⟩ := ptr_ne_none env.window h2
  obtain ⟨h5, bb, hb⟩ := (init_true_iff env env.window).mp h3
  have hq : ∃ b ∈ env.batches, ∃ e ∈ b, isQuitEvent e = true := by
    obtain ⟨b, hbm, e, he, hqe⟩ := h4
    exact ⟨b, hbm, e, he, (isQuitEvent_iff e).mpr hqe⟩
  have hl := mainLoop_exits env.batches (okGlobals env) env.deviceContext env.swapChain
    rfl rfl hq
  rw [main_ok_exited env w bb h1 hw h5 hb hl]

/-- Witness of C1 on a run that quits by `SDL_QUIT` and one that quits by Escape. -/
theorem main_returns_zero_on_quit_witness :
    (main envQuit).outcome = Outcome.returned 0 ∧
      (main envEscape).outcome = Outcome.returned 0 :=
  ⟨main_returns_zero_on_quit envQuit (by decide) (by decide) (by decide)
      ⟨[⟨SDL_QUIT, 0⟩], by decide, ⟨SDL_QUIT, 0⟩, by decide, Or.inl rfl⟩,
   main_returns_zero_on_quit envEscape (by decide) (by decide) (by decide)
      ⟨[⟨SDL_KEYDOWN, SDLK_ESCAPE⟩], by decide, ⟨SDL_KEYDOWN, SDLK_ESCAPE⟩, by decide,
        Or.inr ⟨rfl, rfl⟩⟩⟩

/-- C2: in each of the three initialization-failure cases (`SDL_Init` returns a
negative value; `SDL_Init` succeeds and `SDL_CreateWindow` returns null; both
succeed and `D3D11CreateDeviceAndSwapChain` returns a failing `HRESULT`, so that
`InitializeDirectX11` returns false) `main` returns exactly -1, and the run
contains no `SDL_PollEvent`, no `ClearRenderTargetView` and no `Present`. -/
theorem main_init_failure (env : Env)
    (h : env.sdlInit < 0 ∨ (0 ≤ env.sdlInit ∧ env.window = none) ∨
      (0 ≤ env.sdlInit ∧ env.window ≠ none ∧ FAILED env.hr = true)) :
    (main env).outcome = Outcome.returned (-1) ∧
      (∀ c ∈ (main env).trace, isPoll c = false ∧ isClear c = false ∧ isPresent c = false) ∧
      (FAILED env.hr = true →
        (InitializeDirectX11 env env.window Globals.init).result = some false) := by
  have hinit : FAILED env.hr = true →
      (InitializeDirectX11 env env.window Globals.init).result = some false := by
    intro hf
    have hf2 : env.hr < 0 := by simpa [FAILED] using hf
    rw [init_failed env env.window hf2]
  rcases h with h | ⟨h1, h2⟩ | ⟨h1, h2, h3⟩
  · rw [main_sdl_fail env h]
    refine ⟨rfl, ?_, hinit⟩
    intro c hc
    simp only [List.mem_cons, List.mem_singleton, List.not_mem_nil, or_false] at hc
    rcases hc with rfl | rfl | rfl <;> exact ⟨rfl, rfl, rfl⟩
  · rw [main_window_fail env h1 h2]
    refine ⟨rfl, ?_, hinit⟩
    intro c hc
    simp only [List.mem_cons, List.mem_singleton, List.not_mem_nil, or_false] at hc
    rcases hc with rfl | rfl | rfl | rfl | rfl <;> exact ⟨rfl, rfl, rfl⟩
  · obtain ⟨w, hw⟩ := ptr_ne_none env.window h2
    have hf2 : env.hr < 0 := by simpa [FAILED] using h3
    rw [main_device_fail env w h1 hw hf2]
    refine ⟨rfl, ?_, hinit⟩
    intro c hc
    simp only [initTraceFailed, List.cons_append, List.nil_append, List.mem_cons,
      List.mem_singleton, List.not_mem_nil, or_false] at hc
    rcases hc with rfl | rfl | rfl | rfl | rfl | rfl | rfl <;> exact ⟨rfl, rfl, rfl⟩

/-- Witness of C2 on one run for each of the three failure cases. -/
theorem main_init_failure_witness :
    (main envNoSDL).outcome = Outcome.returned (-1) ∧
      (main envNoWindow).outcome = Outcome.returned (-1) ∧
      (main envNoDevice).outcome = Outcome.returned (-1) :=
  ⟨(main_init_failure envNoSDL (Or.inl (by decide))).1,
   (main_init_failure envNoWindow (Or.inr (Or.inl ⟨by decide, by decide⟩))).1,
   (main_init_failure envNoDevice
      (Or.inr (Or.inr ⟨by decide, by decide, by decide⟩))).1⟩

/-- C5: each failure kind (`SDL_Init` fails, `SDL_CreateWindow` fails,
`D3D11CreateDeviceAndSwapChain` fails) writes a line to standard error and makes
`main` return a negative exit code; a run in which the three initialization
steps succeed writes nothing to standard error. -/
theorem failure_diagnostics (env : Env) :
    ((env.sdlInit < 0 ∨ (0 ≤ env.sdlInit ∧ env.window = none) ∨
        (0 ≤ env.sdlInit ∧ env.window ≠ none ∧ FAILED env.hr = true)) →
      (∃ line, Call.cerr line ∈ (main env).trace) ∧
        ∃ code, (main env).outcome = Outcome.returned code ∧ code < 0) ∧
    ((0 ≤ env.sdlInit ∧ env.window ≠ none ∧ FAILED env.hr = false) →
      ∀ c ∈ (main env).trace, isCerr c = false) := by
  constructor
  · rintro (h | ⟨h1, h2⟩ | ⟨h1, h2, h3⟩)
    · rw [main_sdl_fail env h]
      exact ⟨⟨"Failed to initialize SDL: " ++ env.sdlError, by simp⟩, -1, rfl, by decide⟩
    · rw [main_window_fail env h1 h2]
      exact ⟨⟨"Failed to create window: " ++ env.sdlError, by simp⟩, -1, rfl, by decide⟩
    · obtain ⟨w, hw⟩ := ptr_ne_none env.window h2
      have hf2 : env.hr < 0 := by simpa [FAILED] using h3
      rw [main_device_fail env w h1 hw hf2]
      exact ⟨⟨"Failed to create D3D11 device and swap chain!", by simp [initTraceFailed]⟩,
        -1, rfl, by decide⟩
  · rintro ⟨h1, h2, h3⟩
    obtain ⟨w, hw⟩ := ptr_ne_none env.window h2
    have h4 : 0 ≤ env.hr := by simpa [FAILED] using h3
    have hstart : ∀ bb, ∀ c ∈ startTrace env w bb, isCerr c = false := by
      intro bb c hc
      simp only [startTrace, initTraceOk, banner, List.cons_append, List.nil_append,
        List.mem_cons, List.mem_singleton, List.not_mem_nil, or_false] at hc
      rcases hc with rfl | rfl | rfl | rfl | rfl | rfl | rfl | rfl | rfl | rfl | rfl | rfl |
        rfl | rfl | rfl <;> rfl
    cases hb : env.backBuffer with
    | none =>
      rw [main_null env w h1 hw h4 hb]
      intro c hc
      simp only [initTraceNull, List.cons_append, List.nil_append, List.mem_cons,
        List.mem_singleton, List.not_mem_nil, or_false] at hc
      rcases hc with rfl | rfl | rfl | rfl | rfl | rfl <;> rfl
    | some bb =>
      obtain ⟨l, hl, hshape⟩ := main_ok_shape env w bb h1 hw h4 hb
      have hloop : ∀ c ∈ l, isCerr c = false := by
        intro c hc
        rcases hl c hc with hp | hf
        · cases c <;> simp_all [isPoll, isCerr]
        · simp only [frame, List.mem_cons, List.mem_singleton, List.not_mem_nil,
            or_false] at hf
          rcases hf with rfl | rfl <;> rfl
      rcases hshape with ⟨_, ht⟩ | ⟨_, ht⟩
      · rw [ht]
        intro c hc
        rcases List.mem_append.mp hc with h | h
        · exact hstart bb c h
        · exact hloop c h
      · rw [ht]
        intro c hc
        simp only [List.mem_append, List.mem_cons, List.mem_singleton, List.not_mem_nil,
          or_false] at hc
        rcases hc with ((h | h) | h) | rfl | rfl
        · exact hstart bb c h
        · exact hloop c h
        · have := Cleanup_trace_release _ c h
          cases c <;> simp_all [isRelease, isCerr]
        · rfl
        · rfl

/-- Witness of C5: a failing run of each kind, and a successful run. -/
theorem failure_diagnostics_witness :
    ((∃ line, Call.cerr line ∈ (main envNoSDL).trace) ∧
        ∃ code, (main envNoSDL).outcome = Outcome.returned code ∧ code < 0) ∧
    ((∃ line, Call.cerr line ∈ (main envNoWindow).trace) ∧
        ∃ code, (main envNoWindow).outcome = Outcome.returned code ∧ code < 0) ∧
    ((∃ line, Call.cerr line ∈ (main envNoDevice).trace) ∧
        ∃ code, (main envNoDevice).outcome = Outcome.returned code ∧ code < 0) ∧
    (∀ c ∈ (main envQuit).trace, isCerr c = false) :=
  ⟨(failure_diagnostics envNoSDL).1 (Or.inl (by decide)),
   (failure_diagnostics envNoWindow).1 (Or.inr (Or.inl ⟨by decide, by decide⟩)),
   (failure_diagnostics envNoDevice).1 (Or.inr (Or.inr ⟨by decide, by decide, by decide⟩)),
   (failure_diagnostics envQuit).2 ⟨by decide, by decide, by decide⟩⟩

/-- C7: a call of `Render` with `g_deviceContext` and `g_swapChain` set (as they
are at every call in `main`, which follows an `InitializeDirectX11` that
returned true) issues exactly two device calls, in this order:
`ClearRenderTargetView` on `g_renderTargetView` with the constant colour
(0.1, 0.2, 0.3, 1.0), then `Present` on `g_swapChain` with sync interval 1 and
flags 0; it returns with the four globals unchanged. -/
theorem Render_two_calls :
    (∀ (g : Globals) (ctx sc : Nat), g.g_deviceContext = some ctx → g.g_swapChain = some sc →
      Render g =
        ⟨[Call.ClearRenderTargetView ctx g.g_renderTargetView [⟨1, 1⟩, ⟨2, 1⟩, ⟨3, 1⟩, ⟨10, 1⟩],
          Call.Present sc 1 0], g, some ()⟩) ∧
    (∀ (env : Env) (window : Ptr),
      (InitializeDirectX11 env window Globals.init).result = some true →
      (InitializeDirectX11 env window Globals.init).globals.g_deviceContext =
          some env.deviceContext ∧
        (InitializeDirectX11 env window Globals.init).globals.g_swapChain =
          some env.swapChain) := by
  constructor
  · intro g ctx sc hc hs
    rw [Render_eq g ctx sc hc hs]
    rfl
  · intro env window h
    obtain ⟨h5, bb, hb⟩ := (init_true_iff env window).mp h
    rw [init_ok env window bb h5 hb]
    exact ⟨rfl, rfl⟩

/-- Witness of C7 on the globals of a successful initialization. -/
theorem Render_two_calls_witness :
    Render (okGlobals envQuit) =
      ⟨[Call.ClearRenderTargetView 12 (some 14) [⟨1, 1⟩, ⟨2, 1⟩, ⟨3, 1⟩, ⟨10, 1⟩],
        Call.Present 10 1 0], okGlobals envQuit, some ()⟩ :=
  Render_two_calls.1 (okGlobals envQuit) 12 10 rfl rfl

/-- C8: `running` is cleared by an event exactly when the event is an
`SDL_QUIT` or an `SDL_KEYDOWN` with key `SDLK_ESCAPE`; after draining a batch
that contains neither, `running` has the value it had before (true stays true),
one frame is rendered and the loop goes on with the next drain, whose first
call is an `SDL_PollEvent`; and a drain started with `running` false ends with
`running` false, whatever the events. -/
theorem running_cleared_only_by_quit :
    (∀ e : SDL_Event, handleEvent true e = false ↔
      (e.type = SDL_QUIT ∨ (e.type = SDL_KEYDOWN ∧ e.sym = SDLK_ESCAPE))) ∧
    (∀ batch : List SDL_Event,
      (∀ e ∈ batch, ¬ (e.type = SDL_QUIT ∨ (e.type = SDL_KEYDOWN ∧ e.sym = SDLK_ESCAPE))) →
      (pollEvents batch true).1 = true ∧
      ∀ (g : Globals) (ctx sc : Nat) (rest : List (List SDL_Event)),
        g.g_deviceContext = some ctx → g.g_swapChain = some sc →
        (mainLoop (batch :: rest) true g).trace =
            (pollEvents batch true).2 ++
              [Call.ClearRenderTargetView ctx g.g_renderTargetView clearColor,
               Call.Present sc 1 0] ++
              (mainLoop rest true g).trace ∧
          (mainLoop (batch :: rest) true g).stop = (mainLoop rest true g).stop ∧
          ∀ next rest2, rest = next :: rest2 →
            (mainLoop rest true g).trace.head? = some (Call.SDL_PollEvent next.head?)) ∧
    (∀ batch : List SDL_Event, (pollEvents batch false).1 = false) := by
  refine ⟨?_, ?_, ?_⟩
  · intro e
    rw [handleEvent_eq, ← isQuitEvent_iff]
    simp
  · intro batch hno
    have hany : batch.any isQuitEvent = false := by
      rw [List.any_eq_false]
      intro e he hq
      exact hno e he ((isQuitEvent_iff e).mp hq)
    refine ⟨by rw [pollEvents_running, hany]; rfl, ?_⟩
    intro g ctx sc rest hc hs
    rw [mainLoop_cons batch rest g ctx sc hc hs, hany]
    refine ⟨rfl, rfl, ?_⟩
    rintro next rest2 rfl
    rw [mainLoop_cons next rest2 g ctx sc hc hs]
    cases next <;> simp [pollEvents]
  · intro batch
    rw [pollEvents_running]
    rfl

/-- Witness of C8: a batch with a key-down of the space bar and a key-up of
Escape leaves `running` true. -/
theorem running_cleared_only_by_quit_witness :
    (pollEvents [⟨SDL_KEYDOWN, SDLK_SPACE⟩, ⟨SDL_KEYUP, SDLK_ESCAPE⟩] true).1 = true :=
  (running_cleared_only_by_quit.2.1 [⟨SDL_KEYDOWN, SDLK_SPACE⟩, ⟨SDL_KEYUP, SDLK_ESCAPE⟩]
    (by decide)).1

/-- C9 (failing input): device creation succeeds (`hr = 0`) and `GetBuffer`
fails, leaving `backBuffer` null.  `InitializeDirectX11` does not return true:
after `GetBuffer` and `CreateRenderTargetView` it stops at the member call
`backBuffer->Release()` of line 81, and `main` ends there. -/
theorem init_stops_on_null_back_buffer :
    FAILED envNoBackBuffer.hr = false ∧
    (InitializeDirectX11 envNoBackBuffer envNoBackBuffer.window Globals.init).result = none ∧
    (InitializeDirectX11 envNoBackBuffer envNoBackBuffer.window Globals.init).trace =
      [Call.SDL_GetWindowWMInfo (some 1),
       Call.D3D11CreateDeviceAndSwapChain 0 (swapChainDesc 2) 0 (some 10) (some 11) (some 12),
       Call.GetBuffer 10 0 none,
       Call.CreateRenderTargetView 11 none none] ∧
    (main envNoBackBuffer).outcome = Outcome.nullDeref := by
  decide

/-- C6 (counterexample): in the run `envEscape` the only drain hands out an
Escape key-down; the calls after the start-up are that poll, the poll that
finds the queue empty, then a `ClearRenderTargetView` and a `Present`, and only
then the teardown.  A frame is cleared and presented after the Escape key-down
was polled. -/
theorem render_after_quit_counterexample :
    (main envEscape).trace.drop 15 =
      [Call.SDL_PollEvent (some ⟨SDL_KEYDOWN, SDLK_ESCAPE⟩),
       Call.SDL_PollEvent none,
       Call.ClearRenderTargetView 12 (some 14) clearColor,
       Call.Present 10 1 0,
       Call.Release Res.g_renderTargetView 14,
       Call.Release Res.g_swapChain 10,
       Call.Release Res.g_deviceContext 12,
       Call.Release Res.g_device 11,
       Call.SDL_DestroyWindow (some 1),
       Call.SDL_Quit] ∧
    noRenderAfterQuit (main envEscape).trace = false := by
  decide

/-- C6 (amended): an iteration of the main loop, entered with `running` true
after a successful initialization, first polls every pending event of the batch
and the empty-queue answer, then issues one `ClearRenderTargetView` and one
`Present` whether or not a quit event or Escape key-down was in the batch; if
one was, the loop ends right after that frame without polling again, and
otherwise it goes on with the next iteration. -/
theorem loop_iteration (g : Globals) (ctx sc : Nat) (batch : List SDL_Event)
    (rest : List (List SDL_Event))
    (hc : g.g_deviceContext = some ctx) (hs : g.g_swapChain = some sc) :
    (mainLoop (batch :: rest) true g).trace =
        batch.map (fun e => Call.SDL_PollEvent (some e)) ++ [Call.SDL_PollEvent none] ++
          [Call.ClearRenderTargetView ctx g.g_renderTargetView clearColor,
           Call.Present sc 1 0] ++
          (if batch.any isQuitEvent then [] else (mainLoop rest true g).trace) ∧
      (mainLoop (batch :: rest) true g).stop =
        (if batch.any isQuitEvent then LoopEnd.exited else (mainLoop rest true g).stop) := by
  rw [mainLoop_cons batch rest g ctx sc hc hs, pollEvents_trace]
  cases hany : batch.any isQuitEvent
  · exact ⟨rfl, rfl⟩
  · simp [mainLoop_false, frame]

/-- Witness of the amended C6: an iteration whose batch holds an `SDL_QUIT`,
followed by a batch that is never drained. -/
theorem loop_iteration_witness :
    (mainLoop [[⟨SDL_QUIT, 0⟩], [⟨SDL_KEYDOWN, SDLK_SPACE⟩]] true (okGlobals envQuit)).trace =
        [Call.SDL_PollEvent (some ⟨SDL_QUIT, 0⟩), Call.SDL_PollEvent none,
         Call.ClearRenderTargetView 12 (some 14) clearColor, Call.Present 10 1 0] ∧
      (mainLoop [[⟨SDL_QUIT, 0⟩], [⟨SDL_KEYDOWN, SDLK_SPACE⟩]] true (okGlobals envQuit)).stop =
        LoopEnd.exited :=
  loop_iteration (okGlobals envQuit) 12 10 [⟨SDL_QUIT, 0⟩] [[⟨SDL_KEYDOWN, SDLK_SPACE⟩]]
    rfl rfl

/-- C3: on a run that initializes successfully and leaves the main loop (`main`
returns 0), whenever the call that acquires a global handle `a` comes earlier in
the run than the call that acquires a global handle `b`, the `Release` on `b`
comes earlier than the `Release` on `a`; and the `Release` calls on the four
global handles are exactly those of `Cleanup`, in the order render-target view,
swap chain, immediate context, device. -/
theorem release_reverses_acquisition (env : Env)
    (h : (main env).outcome = Outcome.returned 0) :
    (∀ a b i j, acquiredAt (main env).trace a = some i →
      acquiredAt (main env).trace b = some j → i < j →
      ∃ p q, releasedAt (main env).trace b = some p ∧
        releasedAt (main env).trace a = some q ∧ p < q) ∧
    (main env).trace.filter (fun c => isRelease c && !isReleaseOf Res.backBuffer c) =
      releaseIfSet Res.g_renderTargetView env.rtv ++
        [Call.Release Res.g_swapChain env.swapChain,
         Call.Release Res.g_deviceContext env.deviceContext,
         Call.Release Res.g_device env.device] := by
  obtain ⟨w, bb, h1, hw, h3, hb, hl⟩ := main_returned_zero env h
  rw [main_ok_exited env w bb h1 hw h3 hb hl]
  have hn := loop_calls_neutral env.deviceContext env.swapChain env.rtv
    (mainLoop env.batches true (okGlobals env)).trace
    (mainLoop_trace_calls env.batches true (okGlobals env) env.deviceContext
      env.swapChain rfl rfl)
  generalize (mainLoop env.batches true (okGlobals env)).trace = l at hn
  simp only [List.append_assoc (startTrace env w bb ++ l)]
  have hacq : ∀ r, firstIdx (acquires r)
      (startTrace env w bb ++ l ++
        ((Cleanup (okGlobals env)).trace ++ [Call.SDL_DestroyWindow (some w), Call.SDL_Quit])) =
      acqStart env.rtv r := by
    intro r
    cases hs : acqStart env.rtv r with
    | some i =>
      exact firstIdx_three_some _ _ _ _ i ((acquires_start env w bb r).trans hs)
    | none =>
      rw [firstIdx_three_none _ _ _ _ ((acquires_start env w bb r).trans hs)
        (fun c hc => (hn c hc).1 r), acquires_end]
      rfl
  have hrel : ∀ r, r ≠ Res.backBuffer → firstIdx (isReleaseOf r)
      (startTrace env w bb ++ l ++
        ((Cleanup (okGlobals env)).trace ++ [Call.SDL_DestroyWindow (some w), Call.SDL_Quit])) =
      (relEnd env.rtv r).map (fun i => i + (15 + l.length)) := by
    intro r hr
    rw [firstIdx_three_none _ _ _ _ (release_start env w bb r hr)
      (fun c hc => (hn c hc).2.1 r), release_end, startTrace_length]
  constructor
  · intro a b i j ha hb2 hij
    unfold acquiredAt at ha hb2
    unfold releasedAt
    rw [hacq a] at ha
    rw [hacq b] at hb2
    cases hv : env.rtv with
    | none =>
      rw [hv] at ha hb2
      cases a <;> cases b <;> simp [acqStart] at ha hb2 <;> omega
    | some v =>
      rw [hv] at ha hb2
      cases a <;> cases b <;> simp [acqStart] at ha hb2 <;>
        first
        | omega
        | (rw [hrel _ (by decide), hrel _ (by decide), hv]
           simp [relEnd])
  · simp only [List.filter_append]
    have hfl : l.filter (fun c => isRelease c && !isReleaseOf Res.backBuffer c) = [] := by
      rw [List.filter_eq_nil_iff]
      intro c hc
      simp [(hn c hc).2.2.1]
    rw [hfl]
    rcases env with ⟨_, _, _, _, _, _, _, _, _, _, _, view, _⟩
    cases view <;> rfl

/-- Witness of C3 on a run that acquires the four handles and quits: the device
is acquired by the call at position 3 and the render-target view by the call at
position 5, and the view is released before the device. -/
theorem release_reverses_acquisition_witness :
    acquiredAt (main envQuit).trace Res.g_device = some 3 ∧
    acquiredAt (main envQuit).trace Res.g_renderTargetView = some 5 ∧
    (∃ p q, releasedAt (main envQuit).trace Res.g_renderTargetView = some p ∧
      releasedAt (main envQuit).trace Res.g_device = some q ∧ p < q) ∧
    (main envQuit).trace.filter (fun c => isRelease c && !isReleaseOf Res.backBuffer c) =
      [Call.Release Res.g_renderTargetView 14, Call.Release Res.g_swapChain 10,
       Call.Release Res.g_deviceContext 12, Call.Release Res.g_device 11] :=
  ⟨by decide, by decide,
   (release_reverses_acquisition envQuit (by decide)).1 Res.g_device Res.g_renderTargetView
      3 5 (by decide) (by decide) (by decide),
   (release_reverses_acquisition envQuit (by decide)).2⟩

/-- C4: in every run of `main`, whatever the libraries answer and whatever the
events, each handle is released at most once; and in a run in which
`InitializeDirectX11` returned true leaving the global handle `r` non-null and
which reaches shutdown (`main` returns 0), `r` is released exactly once, by
`Cleanup`, whose calls come after every `ClearRenderTargetView` and `Present`
of the run and right before `SDL_DestroyWindow` and `SDL_Quit`. -/
theorem released_once :
    (∀ (env : Env) (r : Res), (main env).trace.countP (isReleaseOf r) ≤ 1) ∧
    (∀ (env : Env) (r : Res) (a : Nat),
      (main env).outcome = Outcome.returned 0 →
      (InitializeDirectX11 env env.window Globals.init).result = some true →
      (InitializeDirectX11 env env.window Globals.init).globals.get r = some a →
      (main env).trace.countP (isReleaseOf r) = 1 ∧
      ∃ pre, (main env).trace =
          pre ++ (Cleanup (main env).globals).trace ++
            [Call.SDL_DestroyWindow env.window, Call.SDL_Quit] ∧
        (∀ c ∈ pre, isReleaseOf r c = false) ∧
        Call.Release r a ∈ (Cleanup (main env).globals).trace ∧
        (Cleanup (main env).globals).trace.countP (isReleaseOf r) = 1 ∧
        (∀ c ∈ (Cleanup (main env).globals).trace ++
            [Call.SDL_DestroyWindow env.window, Call.SDL_Quit],
          isClear c = false ∧ isPresent c = false)) := by
  constructor
  · intro env r
    by_cases h1 : env.sdlInit < 0
    · rw [main_sdl_fail env h1]
      simp [List.countP_cons, isReleaseOf]
    · have h1 : 0 ≤ env.sdlInit := not_lt.mp h1
      cases hw : env.window with
      | none =>
        rw [main_window_fail env h1 hw]
        simp [List.countP_cons, isReleaseOf, createWindowCall]
      | some w =>
        by_cases h3 : env.hr < 0
        · rw [main_device_fail env w h1 hw h3]
          simp [List.countP_cons, isReleaseOf, createWindowCall, initTraceFailed]
        · have h3 : 0 ≤ env.hr := not_lt.mp h3
          cases hb : env.backBuffer with
          | none =>
            rw [main_null env w h1 hw h3 hb]
            simp only [count_release_null]
            omega
          | some bb =>
            have hn := loop_calls_neutral env.deviceContext env.swapChain env.rtv
              (mainLoop env.batches true (okGlobals env)).trace
              (mainLoop_trace_calls env.batches true (okGlobals env) env.deviceContext
                env.swapChain rfl rfl)
            have hl0 := countP_zero (isReleaseOf r) _ (fun c hc => (hn c hc).2.1 r)
            by_cases hl : (mainLoop env.batches true (okGlobals env)).stop = LoopEnd.exited
            · rw [main_ok_exited env w bb h1 hw h3 hb hl]
              simp only [List.append_assoc (startTrace env w bb ++ _)]
              rw [List.countP_append, List.countP_append, hl0, count_release_start,
                count_release_end]
              cases r <;> simp [okGlobals, Globals.get]
              split <;> omega
            · rw [main_ok_inLoop env w bb h1 hw h3 hb hl]
              simp only []
              rw [List.countP_append, hl0, count_release_start]
              split <;> omega
  · intro env r a h hres hget
    obtain ⟨w, bb, h1, hw, h3, hb, hl⟩ := main_returned_zero env h
    rw [hw, init_ok env (some w) bb h3 hb] at hget
    have hget : (okGlobals env).get r = some a := hget
    have hr : r ≠ Res.backBuffer := by
      rintro rfl
      simp [Globals.get] at hget
    have hn := loop_calls_neutral env.deviceContext env.swapChain env.rtv
      (mainLoop env.batches true (okGlobals env)).trace
      (mainLoop_trace_calls env.batches true (okGlobals env) env.deviceContext
        env.swapChain rfl rfl)
    have hl0 := countP_zero (isReleaseOf r) _ (fun c hc => (hn c hc).2.1 r)
    have hpre : ∀ c ∈ startTrace env w bb ++ (mainLoop env.batches true (okGlobals env)).trace,
        isReleaseOf r c = false := by
      intro c hc
      rcases List.mem_append.mp hc with hs | hlm
      · have h0 := count_release_start env w bb r
        rw [if_neg hr, List.countP_eq_zero] at h0
        simpa using h0 c hs
      · exact (hn c hlm).2.1 r
    rw [main_ok_exited env w bb h1 hw h3 hb hl, hw]
    refine ⟨?_, startTrace env w bb ++ (mainLoop env.batches true (okGlobals env)).trace,
      rfl, hpre, ?_, ?_, ?_⟩
    · simp only [List.append_assoc (startTrace env w bb ++ _)]
      rw [List.countP_append, count_release_end, countP_zero _ _ hpre, hget]
      rfl
    · exact (mem_Cleanup _ _).mpr ⟨r, a, hr, hget, rfl⟩
    · rw [count_release_cleanup, hget]
      rfl
    · intro c hc
      simp only [List.mem_append, List.mem_cons, List.mem_singleton, List.not_mem_nil,
        or_false] at hc
      rcases hc with hcl | rfl | rfl
      · obtain ⟨r2, a2, _, _, rfl⟩ := (mem_Cleanup _ _).mp hcl
        exact ⟨rfl, rfl⟩
      · exact ⟨rfl, rfl⟩
      · exact ⟨rfl, rfl⟩

/-- Witness of C4: in a run that quits, the swap chain is released exactly once. -/
theorem released_once_witness :
    (main envQuit).trace.countP (isReleaseOf Res.g_swapChain) = 1 :=
  (released_once.2 envQuit Res.g_swapChain 10 (by decide) (by decide) (by decide)).1

/-- C10: on every path of `main` that returns: if `SDL_Init` succeeded,
`SDL_Quit` is called exactly once and is the last call of the run; if moreover
the window was created, `SDL_DestroyWindow` is called exactly once, on that
window, right before `SDL_Quit`, and on the normal path (exit code 0) right
after the calls of `Cleanup`, so after all its `Release` calls; if `SDL_Init`
failed neither `SDL_Quit` nor `SDL_DestroyWindow` is called; and if device
creation failed no `Release` is issued. -/
theorem teardown_paths (env : Env) (code : Int)
    (h : (main env).outcome = Outcome.returned code) :
    (0 ≤ env.sdlInit →
      (main env).trace.countP isSDLQuit = 1 ∧
        (main env).trace.getLast? = some Call.SDL_Quit) ∧
    (0 ≤ env.sdlInit → env.window ≠ none →
      (main env).trace.countP isDestroyWindow = 1 ∧
      ∃ pre, (main env).trace = pre ++ [Call.SDL_DestroyWindow env.window, Call.SDL_Quit] ∧
        (∀ c ∈ pre, isDestroyWindow c = false ∧ isSDLQuit c = false) ∧
        (code = 0 → ∃ pre2, pre = pre2 ++ (Cleanup (main env).globals).trace ∧
          ∀ c ∈ pre2, ∀ r, r ≠ Res.backBuffer → isReleaseOf r c = false)) ∧
    (env.sdlInit < 0 →
      ∀ c ∈ (main env).trace, isSDLQuit c = false ∧ isDestroyWindow c = false) ∧
    (0 ≤ env.sdlInit → env.window ≠ none → FAILED env.hr = true →
      ∀ c ∈ (main env).trace, isRelease c = false) := by
  rcases main_returned env code h with ⟨h1, _⟩ | ⟨h1, hw, _⟩ | ⟨w, h1, hw, h3, hcode⟩ |
    ⟨w, bb, h1, hw, h3, hb, hl, hcode⟩
  · -- `SDL_Init` failed
    rw [main_sdl_fail env h1]
    refine ⟨fun h0 => absurd h1 (not_lt.mpr h0), fun h0 => absurd h1 (not_lt.mpr h0), ?_,
      fun h0 => absurd h1 (not_lt.mpr h0)⟩
    intro _ c hc
    simp only [List.mem_cons, List.mem_singleton, List.not_mem_nil, or_false] at hc
    rcases hc with rfl | rfl | rfl <;> exact ⟨rfl, rfl⟩
  · -- `SDL_CreateWindow` failed
    rw [main_window_fail env h1 hw]
    refine ⟨fun _ => ⟨rfl, rfl⟩, fun _ hne => absurd hw hne,
      fun h0 => absurd h0 (not_lt.mpr h1), fun _ hne => absurd hw hne⟩
  · -- device creation failed
    rw [main_device_fail env w h1 hw h3, hw]
    have hpre : ∀ c ∈ [Call.SDL_Init SDL_INIT_VIDEO env.sdlInit, createWindowCall (some w)] ++
        initTraceFailed env (some w), isDestroyWindow c = false ∧ isSDLQuit c = false := by
      intro c hc
      simp only [initTraceFailed, List.cons_append, List.nil_append, List.mem_cons,
        List.mem_singleton, List.not_mem_nil, or_false] at hc
      rcases hc with rfl | rfl | rfl | rfl | rfl <;> exact ⟨rfl, rfl⟩
    refine ⟨fun _ => ⟨rfl, rfl⟩, fun _ _ => ⟨rfl, _, rfl, hpre, ?_⟩,
      fun h0 => absurd h0 (not_lt.mpr h1), ?_⟩
    · intro h0
      rw [hcode] at h0
      exact absurd h0 (by decide)
    · intro _ _ _ c hc
      simp only [initTraceFailed, List.cons_append, List.nil_append, List.mem_cons,
        List.mem_singleton, List.not_mem_nil, or_false] at hc
      rcases hc with rfl | rfl | rfl | rfl | rfl | rfl | rfl <;> rfl
  · -- normal path
    have hn := loop_calls_neutral env.deviceContext env.swapChain env.rtv
      (mainLoop env.batches true (okGlobals env)).trace
      (mainLoop_trace_calls env.batches true (okGlobals env) env.deviceContext
        env.swapChain rfl rfl)
    rw [main_ok_exited env w bb h1 hw h3 hb hl, hw]
    generalize (mainLoop env.batches true (okGlobals env)).trace = l at hn
    have hstart : ∀ c ∈ startTrace env w bb,
        isDestroyWindow c = false ∧ isSDLQuit c = false ∧
          ∀ r, r ≠ Res.backBuffer → isReleaseOf r c = false := by
      intro c hc
      simp only [startTrace, initTraceOk, banner, List.cons_append, List.nil_append,
        List.mem_cons, List.mem_singleton, List.not_mem_nil, or_false] at hc
      rcases hc with rfl | rfl | rfl | rfl | rfl | rfl | rfl | rfl | rfl | rfl | rfl | rfl |
        rfl | rfl | rfl <;>
        refine ⟨rfl, rfl, fun r hr => ?_⟩ <;> first | rfl | (cases r <;> first | rfl | exact absurd rfl hr)
    have hclean : ∀ c ∈ (Cleanup (okGlobals env)).trace,
        isDestroyWindow c = false ∧ isSDLQuit c = false := by
      intro c hc
      obtain ⟨r, a, _, _, rfl⟩ := (mem_Cleanup _ _).mp hc
      exact ⟨rfl, rfl⟩
    have hpre : ∀ c ∈ startTrace env w bb ++ l ++ (Cleanup (okGlobals env)).trace,
        isDestroyWindow c = false ∧ isSDLQuit c = false := by
      intro c hc
      simp only [List.mem_append] at hc
      rcases hc with (hc | hc) | hc
      · exact ⟨(hstart c hc).1, (hstart c hc).2.1⟩
      · exact ⟨(hn c hc).2.2.2.2, (hn c hc).2.2.2.1⟩
      · exact hclean c hc
    have hq : (startTrace env w bb ++ l ++ (Cleanup (okGlobals env)).trace).countP isSDLQuit
        = 0 := countP_zero _ _ (fun c hc => (hpre c hc).2)
    have hd : (startTrace env w bb ++ l ++
        (Cleanup (okGlobals env)).trace).countP isDestroyWindow = 0 :=
      countP_zero _ _ (fun c hc => (hpre c hc).1)
    refine ⟨fun _ => ⟨?_, ?_⟩, fun _ _ => ⟨?_, _, rfl, hpre, fun _ => ⟨_, rfl, ?_⟩⟩,
      fun h0 => absurd h0 (not_lt.mpr h1), ?_⟩
    · rw [List.countP_append, hq]
      rfl
    · simp
    · rw [List.countP_append, hd]
      rfl
    · intro c hc r hr
      rcases List.mem_append.mp hc with hc | hc
      · exact (hstart c hc).2.2 r hr
      · exact (hn c hc).2.1 r
    · intro _ _ hf
      have : env.hr < 0 := by simpa [FAILED] using hf
      omega

/-- Witness of C10 on the normal path: `SDL_Quit` is called once and last. -/
theorem teardown_paths_witness :
    (main envQuit).trace.countP isSDLQuit = 1 ∧
      (main envQuit).trace.getLast? = some Call.SDL_Quit :=
  (teardown_paths envQuit 0 (by decide)).1 (by decide)

end Roxy
